import Mathlib

/-!
Verification of the reconciliation pipeline in `backend/data_processor.py`
(and the parallel ETL transform in `backend/pipeline.py`).

The shallow embedding models a pandas DataFrame as a list of column labels
together with rows given as association lists from column name to cell value.
Cell values are strings, numbers (floats are modelled as rationals), or null
(pandas NaN / Python None).  Python exceptions raised by the code under
analysis are modelled with `Except PyError`.
-/

set_option maxRecDepth 8000

namespace ReconPipeline

/-- Scalar cell value of a dataframe: a string, a numeric value, or null
(pandas NaN / Python None). -/
inductive Value where
  | str (s : String)
  | num (q : ℚ)
  | null
deriving DecidableEq

/-- A dataframe row: an association list from column name to cell value. -/
abbrev Row := List (String × Value)

/-- A pandas DataFrame: the column labels plus the rows. -/
structure DataFrame where
  cols : List String
  rows : List Row
deriving DecidableEq

/-- Python exceptions raised by the processed code: the `ValueError` listing
missing required columns (data_processor.py line 85), a column-indexing
`KeyError`, the `ValueError` of `astype(float)` on an unparseable string
(line 173), and the `TypeError` of arithmetic on non-numeric operands. -/
inductive PyError where
  | missingColumns (cols : List String)
  | keyError (col : String)
  | valueErrorFloat (s : String)
  | typeError
deriving DecidableEq

/-- Whitespace trim of a string (Python `str.strip()`), implemented on the
character list so that closed terms evaluate. -/
def sTrim (s : String) : String :=
  String.mk (((s.data.dropWhile Char.isWhitespace).reverse.dropWhile Char.isWhitespace).reverse)

/-- Lower-casing of a string (Python `str.lower()`), on the character list. -/
def sToLower (s : String) : String := String.mk (s.data.map Char.toLower)

/-- Removal of every occurrence of a single character (the Python
`str.replace(c, "")` calls of the source all have one-character patterns). -/
def sRemoveChar (c : Char) (s : String) : String :=
  String.mk (s.data.filter (fun x => x ≠ c))

/-- Replacement of one character by another (the source's
`str.replace(" ", "_")`). -/
def sMapChar (a b : Char) (s : String) : String :=
  String.mk (s.data.map (fun x => if x = a then b else x))

/-- Lookup of a key in an association-list row (first match wins, as for
pandas duplicate column labels). -/
def rowLookup (c : String) : Row → Option Value
  | [] => none
  | (k, v) :: t => if k = c then some v else rowLookup c t

/-- Read the cell of a row at a column; a key that is absent from the
association list reads as null (frame-level `KeyError`s are modelled
separately, at the points where the source indexes a whole column). -/
def rowGet (r : Row) (c : String) : Value := (rowLookup c r).getD Value.null

/-- Replacement of one entry of a row during a column assignment. -/
def setEntry (c : String) (v : Value) (p : String × Value) : String × Value :=
  if p.1 = c then (c, v) else p

/-- Column assignment restricted to one row (pandas `df[c] = ...`): replace
the value at an existing key, or append the new column. -/
def setCell (r : Row) (c : String) (v : Value) : Row :=
  if (rowLookup c r).isSome then r.map (setEntry c v)
  else r ++ [(c, v)]

theorem setEntry_pos (c : String) (v : Value) (p : String × Value) (hp : p.1 = c) :
    setEntry c v p = (c, v) := if_pos hp

theorem setEntry_neg (c : String) (v : Value) (p : String × Value) (hp : ¬ p.1 = c) :
    setEntry c v p = p := if_neg hp

theorem lookup_map_set (r : Row) (c : String) (v : Value) :
    rowLookup c (r.map (setEntry c v)) =
      if (rowLookup c r).isSome then some v else none := by
  induction r with
  | nil => simp [rowLookup]
  | cons p t ih =>
    obtain ⟨k, w⟩ := p
    by_cases hp : k = c
    · rw [List.map_cons, setEntry_pos c v (k, w) hp]
      simp [rowLookup, hp, ih]
    · rw [List.map_cons, setEntry_neg c v (k, w) hp]
      simp [rowLookup, hp, ih]

theorem lookup_map_set_ne (r : Row) (c c' : String) (v : Value) (h : c' ≠ c) :
    rowLookup c' (r.map (setEntry c v)) = rowLookup c' r := by
  induction r with
  | nil => simp [rowLookup]
  | cons p t ih =>
    obtain ⟨k, w⟩ := p
    by_cases hp : k = c
    · have hne : ¬ c = c' := Ne.symm h
      have hne2 : ¬ k = c' := by rw [hp]; exact hne
      rw [List.map_cons, setEntry_pos c v (k, w) hp]
      simp [rowLookup, hne, hne2, ih]
    · rw [List.map_cons, setEntry_neg c v (k, w) hp]
      by_cases hc : k = c'
      · simp [rowLookup, hc]
      · simp [rowLookup, hc, ih]

theorem lookup_append_row (c : String) (r₁ r₂ : Row) :
    rowLookup c (r₁ ++ r₂) =
      match rowLookup c r₁ with
      | some v => some v
      | none => rowLookup c r₂ := by
  induction r₁ with
  | nil => simp [rowLookup]
  | cons p t ih =>
    obtain ⟨k, w⟩ := p
    by_cases hp : k = c
    · simp [rowLookup, hp]
    · simp [rowLookup, hp, ih]

theorem rowGet_setCell_self (r : Row) (c : String) (v : Value) :
    rowGet (setCell r c v) c = v := by
  unfold setCell
  by_cases h : (rowLookup c r).isSome
  · simp [rowGet, h, lookup_map_set]
  · have hnone : rowLookup c r = none := by
      cases hl : rowLookup c r with
      | none => rfl
      | some w => rw [hl] at h; simp at h
    simp [rowGet, h, lookup_append_row, hnone, rowLookup]

theorem rowGet_setCell_ne (r : Row) (c c' : String) (v : Value) (h : c' ≠ c) :
    rowGet (setCell r c v) c' = rowGet r c' := by
  unfold setCell
  by_cases hs : (rowLookup c r).isSome
  · simp [rowGet, hs, lookup_map_set_ne r c c' v h]
  · have hne : ¬ c = c' := Ne.symm h
    cases hl : rowLookup c' r with
    | none => simp [rowGet, hs, lookup_append_row, hl, rowLookup, hne]
    | some w => simp [rowGet, hs, lookup_append_row, hl]

/-- Numeric value of a list of decimal digit characters. -/
def digitsToNat (cs : List Char) : ℕ := cs.foldl (fun a c => 10 * a + (c.toNat - 48)) 0

/-- Integer value with a sign, built as a raw normalized rational so that
closed parses reduce in the kernel. -/
def signedInt (neg : Bool) (n : ℕ) : ℚ :=
  Rat.mk' (if neg then -(n : ℤ) else (n : ℤ)) 1 Nat.one_ne_zero (Nat.coprime_one_right _)

/-- Value of a signed decimal with a fractional part. -/
def signedFrac (neg : Bool) (q : ℚ) : ℚ := if neg then -q else q

/-- Parse of a decimal numeral as done by Python float conversion /
`pd.to_numeric` on ordinary inputs: optional surrounding whitespace, optional
sign, an integer part and an optional fractional part.  Strings outside this
grammar (such as "N/A") do not parse. -/
def parseFloat (s : String) : Option ℚ :=
  let cs := (sTrim s).data
  let neg := cs.head? = some '-'
  let cs := if cs.head? = some '-' ∨ cs.head? = some '+' then cs.tail else cs
  let intPart := cs.takeWhile Char.isDigit
  let rest := cs.dropWhile Char.isDigit
  match rest with
  | [] => if intPart.isEmpty then none else some (signedInt neg (digitsToNat intPart))
  | '.' :: frac =>
    if frac.all Char.isDigit ∧ ¬(intPart.isEmpty ∧ frac.isEmpty) then
      some (signedFrac neg
        ((digitsToNat intPart : ℚ) + (digitsToNat frac : ℚ) / (10 ^ frac.length)))
    else none
  | _ => none

/-- Tolerance banding of data_processor.py lines 324-334: the threshold band
is selected by the bracket of `pna` and the verdict compares `percentage`
strictly against the band minimum; `pna ≤ 0` falls through every band and
returns null. -/
def toleranceVerdict (pna percentage : ℚ) : Option String :=
  if 0 < pna ∧ pna ≤ 300 then
    some (if 50 < percentage then "Within Tolerance" else "Tolerance Breached")
  else if 300 < pna ∧ pna ≤ 500 then
    some (if 45 < percentage then "Within Tolerance" else "Tolerance Breached")
  else if 500 < pna ∧ pna ≤ 900 then
    some (if 43 < percentage then "Within Tolerance" else "Tolerance Breached")
  else if 900 < pna ∧ pna ≤ 1500 then
    some (if 38 < percentage then "Within Tolerance" else "Tolerance Breached")
  else if 1500 < pna then
    some (if 30 < percentage then "Within Tolerance" else "Tolerance Breached")
  else none

/-- The row predicate `check_tolerance` of data_processor.py lines 317-334,
on the amount pair: null when either amount is null or the invoice amount is
zero, otherwise the banded verdict on `percentage = (pna / inv) * 100`. -/
def check_tolerance (pna inv : Option ℚ) : Option String :=
  match pna with
  | none => none
  | some p =>
    match inv with
    | none => none
    | some i => if i = 0 then none else toleranceVerdict p (p / i * 100)

/-- Modelled from the spec (tolerance table of section 4.6): the minimum
percentage a row must strictly exceed, selected by the bracket of `pna`
(meaningful for `0 < pna`). -/
def specBandMinimum (pna : ℚ) : ℚ :=
  if pna ≤ 300 then 50
  else if pna ≤ 500 then 45
  else if pna ≤ 900 then 43
  else if pna ≤ 1500 then 38
  else 30

/-- C1: for non-null amounts with `inv ≠ 0` and `pna > 0`, `check_tolerance`
computes `percentage = (pna / inv) * 100`, selects the band minimum by the
bracket of `pna` per the table ((0,300] min 50, (300,500] min 45, (500,900]
min 43, (900,1500] min 38, (1500,∞) min 30), and answers "Within Tolerance"
exactly when the percentage strictly exceeds the minimum; in particular
`pna=300, inv=1000` and `pna=301, inv=1000` both give "Tolerance Breached". -/
theorem check_tolerance_banded (p i : ℚ) (hp : 0 < p) (hi : i ≠ 0) :
    check_tolerance (some p) (some i) =
      some (if specBandMinimum p < p / i * 100 then "Within Tolerance"
            else "Tolerance Breached") ∧
    check_tolerance (some 300) (some 1000) = some "Tolerance Breached" ∧
    check_tolerance (some 301) (some 1000) = some "Tolerance Breached" := by
  refine ⟨?_, by norm_num [check_tolerance, toleranceVerdict], by norm_num [check_tolerance, toleranceVerdict]⟩
  simp only [check_tolerance]
  rw [if_neg hi]
  unfold toleranceVerdict specBandMinimum
  rcases le_or_lt p 300 with h1 | h1
  · rw [if_pos ⟨hp, h1⟩, if_pos h1]
  · have n1 : ¬(0 < p ∧ p ≤ 300) := fun hc => absurd hc.2 (not_le.mpr h1)
    rcases le_or_lt p 500 with h2 | h2
    · rw [if_neg n1, if_pos ⟨h1, h2⟩, if_neg (not_le.mpr h1), if_pos h2]
    · have n2 : ¬(300 < p ∧ p ≤ 500) := fun hc => absurd hc.2 (not_le.mpr h2)
      rcases le_or_lt p 900 with h3 | h3
      · rw [if_neg n1, if_neg n2, if_pos ⟨h2, h3⟩, if_neg (not_le.mpr h1),
          if_neg (not_le.mpr h2), if_pos h3]
      · have n3 : ¬(500 < p ∧ p ≤ 900) := fun hc => absurd hc.2 (not_le.mpr h3)
        rcases le_or_lt p 1500 with h4 | h4
        · rw [if_neg n1, if_neg n2, if_neg n3, if_pos ⟨h3, h4⟩, if_neg (not_le.mpr h1),
            if_neg (not_le.mpr h2), if_neg (not_le.mpr h3), if_pos h4]
        · have n4 : ¬(900 < p ∧ p ≤ 1500) := fun hc => absurd hc.2 (not_le.mpr h4)
          rw [if_neg n1, if_neg n2, if_neg n3, if_neg n4, if_pos h4,
            if_neg (not_le.mpr h1), if_neg (not_le.mpr h2), if_neg (not_le.mpr h3),
            if_neg (not_le.mpr h4)]

/-- Witness for C1 at `pna = 300, inv = 1000`: the band is the lower one
(minimum 50), the percentage is 30, and the verdict is "Tolerance Breached". -/
theorem check_tolerance_banded_witness :
    0 < (300 : ℚ) ∧ (1000 : ℚ) ≠ 0 ∧
      check_tolerance (some 300) (some 1000) = some "Tolerance Breached" :=
  ⟨by norm_num, by norm_num,
    (check_tolerance_banded 300 1000 (by norm_num) (by norm_num)).2.1⟩

/-- C2: the verdict is null whenever the net amount is null, the invoice
amount is null, the invoice amount is zero, or the net amount is not
positive; a zero invoice amount short-circuits before any division. -/
theorem check_tolerance_null_cases :
    (∀ inv : Option ℚ, check_tolerance none inv = none) ∧
    (∀ pna : Option ℚ, check_tolerance pna none = none) ∧
    (∀ p : ℚ, check_tolerance (some p) (some 0) = none) ∧
    (∀ p i : ℚ, p ≤ 0 → check_tolerance (some p) (some i) = none) := by
  refine ⟨fun inv => rfl, fun pna => by cases pna <;> rfl, fun p => by simp [check_tolerance], ?_⟩
  intro p i hp
  simp only [check_tolerance]
  by_cases hi : i = 0
  · rw [if_pos hi]
  · rw [if_neg hi]
    unfold toleranceVerdict
    have n1 : ¬(0 < p ∧ p ≤ 300) := fun hc => absurd hp (not_le.mpr hc.1)
    have n2 : ¬(300 < p ∧ p ≤ 500) := fun hc => absurd hp (not_le.mpr (by linarith [hc.1]))
    have n3 : ¬(500 < p ∧ p ≤ 900) := fun hc => absurd hp (not_le.mpr (by linarith [hc.1]))
    have n4 : ¬(900 < p ∧ p ≤ 1500) := fun hc => absurd hp (not_le.mpr (by linarith [hc.1]))
    have n5 : ¬(1500 < p) := fun hc => absurd hp (not_le.mpr (by linarith))
    rw [if_neg n1, if_neg n2, if_neg n3, if_neg n4, if_neg n5]

/-- Witness for C2 at `pna = -5` (and `inv = 7`): a non-positive net amount
yields a null verdict. -/
theorem check_tolerance_null_cases_witness :
    (-5 : ℚ) ≤ 0 ∧ check_tolerance (some (-5)) (some 7) = none :=
  ⟨by norm_num, check_tolerance_null_cases.2.2.2 (-5) 7 (by norm_num)⟩

/-- Per-cell column update derived from the existing column
(pandas `df[c] = f(df[c])` column assignment). -/
def replaceCol (c : String) (f : Value → Value) (r : Row) : Row :=
  setCell r c (f (rowGet r c))

theorem rowGet_replaceCol_self (c : String) (f : Value → Value) (r : Row) :
    rowGet (replaceCol c f r) c = f (rowGet r c) := by
  unfold replaceCol
  exact rowGet_setCell_self _ _ _

theorem rowGet_replaceCol_ne (c c' : String) (f : Value → Value) (r : Row) (h : c' ≠ c) :
    rowGet (replaceCol c f r) c' = rowGet r c' := by
  unfold replaceCol
  exact rowGet_setCell_ne _ _ _ _ h

/-- Header whitespace stripping of data_processor.py line 75, applied to the
keys of one row (rows are positional in pandas; renaming the frame columns
renames the keys of every row of this embedding). -/
def trimKeys (r : Row) : Row := r.map (fun p => (sTrim p.1, p.2))

/-- Required columns of the MTR report (data_processor.py line 82). -/
def requiredColumns : List String := ["Transaction Type", "Order Id", "Invoice Amount"]

/-- Transaction-type mapping of data_processor.py lines 93-97
(`Series.replace`): values outside the mapping pass through unchanged. -/
def mtrTypeMap (v : Value) : Value :=
  if v = Value.str "Refund" then Value.str "Return"
  else if v = Value.str "FreeReplacement" then Value.str "Return"
  else v

/-- Invoice-amount coercion of data_processor.py lines 100-109:
`pd.to_numeric(col.astype(str).str.replace(',', ''), errors='coerce')`
applied cellwise.  An unparseable string coerces to null (NaN); numbers and
nulls round-trip unchanged (`astype(str)` of NaN is "nan", which `to_numeric`
sends back to NaN), which also covers the skipped conversion when the column
is already float64. -/
def coerceNumeric (v : Value) : Value :=
  match v with
  | Value.str s =>
    match parseFloat (sRemoveChar ',' s) with
    | some q => Value.num q
    | none => Value.null
  | v => v

/-- The missing-required-column list computed by data_processor.py line 83
after header trimming. -/
def mtrMissing (df : DataFrame) : List String :=
  requiredColumns.filter (fun c => ! (df.cols.map sTrim).contains c)

/-- data_processor.py `process_mtr_file`, lines 71-115 (the transform after
the file read): trim header names, require the three MTR columns (else raise
the `ValueError` listing exactly the missing ones, line 85), drop rows whose
Transaction Type equals "Cancel" (line 89), map Refund/FreeReplacement to
Return (line 97), and coerce Invoice Amount permissively (lines 100-109). -/
def process_mtr_file (df : DataFrame) : Except PyError DataFrame :=
  let cols := df.cols.map sTrim
  let rows := df.rows.map trimKeys
  if (mtrMissing df).isEmpty then
    let rows := rows.filter (fun r => decide (rowGet r "Transaction Type" ≠ Value.str "Cancel"))
    let rows := rows.map (replaceCol "Transaction Type" mtrTypeMap)
    let rows := rows.map (replaceCol "Invoice Amount" coerceNumeric)
    Except.ok ⟨cols, rows⟩
  else Except.error (PyError.missingColumns (mtrMissing df))

/-- Success test for the exception model. -/
def isOkE {α : Type} (e : Except PyError α) : Bool :=
  match e with
  | Except.ok _ => true
  | Except.error _ => false

/-- C9: `process_mtr_file` raises the schema error listing exactly the
missing required column names if and only if, after trimming header
whitespace, at least one of Transaction Type, Order Id, Invoice Amount is
absent; when all three are present it succeeds (no schema error). -/
theorem process_mtr_file_schema (df : DataFrame) :
    (process_mtr_file df = Except.error (PyError.missingColumns (mtrMissing df)) ↔
      mtrMissing df ≠ []) ∧
    (isOkE (process_mtr_file df) = true ↔ mtrMissing df = []) ∧
    (mtrMissing df = [] ↔
      ∀ c ∈ requiredColumns, c ∈ df.cols.map sTrim) := by
  refine ⟨?_, ?_, ?_⟩
  · by_cases hm : mtrMissing df = []
    · rw [process_mtr_file]
      rw [if_pos (by simp [hm])]
      simp [hm]
    · rw [process_mtr_file]
      rw [if_neg (by simpa using hm)]
      simp [hm]
  · by_cases hm : mtrMissing df = []
    · rw [process_mtr_file, if_pos (by simp [hm])]
      simp [isOkE, hm]
    · rw [process_mtr_file, if_neg (by simpa using hm)]
      simp [isOkE, hm]
  · unfold mtrMissing
    rw [List.filter_eq_nil_iff]
    constructor
    · intro h c hc
      have := h c hc
      simpa using this
    · intro h c hc
      simpa using h c hc

/-- C8: MTR invoice-amount coercion is permissive — "N/A" coerces to null —
and whenever the required columns are present the whole normalization
succeeds and every non-Cancel input row survives to the output, its invoice
amount replaced by the (possibly null) coerced value and its order id
untouched: a malformed invoice amount never rejects the row or the batch. -/
theorem process_mtr_file_permissive (df : DataFrame) (hm : mtrMissing df = []) :
    coerceNumeric (Value.str "N/A") = Value.null ∧
    ∃ dfOut, process_mtr_file df = Except.ok dfOut ∧
      ∀ r ∈ df.rows, rowGet (trimKeys r) "Transaction Type" ≠ Value.str "Cancel" →
        ∃ rOut ∈ dfOut.rows,
          rowGet rOut "Invoice Amount" =
            coerceNumeric (rowGet (trimKeys r) "Invoice Amount") ∧
          rowGet rOut "Order Id" = rowGet (trimKeys r) "Order Id" := by
  constructor
  · rfl
  · rw [process_mtr_file, if_pos (by simp [hm])]
    refine ⟨_, rfl, ?_⟩
    intro r hr hnc
    refine ⟨replaceCol "Invoice Amount" coerceNumeric
      (replaceCol "Transaction Type" mtrTypeMap (trimKeys r)), ?_, ?_, ?_⟩
    · apply List.mem_map_of_mem
      apply List.mem_map_of_mem
      exact List.mem_filter.mpr ⟨List.mem_map_of_mem trimKeys hr, by simpa using hnc⟩
    · unfold replaceCol
      rw [rowGet_setCell_self]
      congr 1
      exact rowGet_setCell_ne _ _ _ _ (by decide)
    · unfold replaceCol
      rw [rowGet_setCell_ne _ _ _ _ (by decide), rowGet_setCell_ne _ _ _ _ (by decide)]

/-- An MTR frame whose single row has the unparseable invoice amount "N/A". -/
def mtrFrameNA : DataFrame :=
  ⟨["Transaction Type", "Order Id", "Invoice Amount"],
   [[("Transaction Type", Value.str "Shipment"),
     ("Order Id", Value.str "405-1111111-2222222"),
     ("Invoice Amount", Value.str "N/A")]]⟩

/-- Witness for C8 on a concrete frame with invoice amount "N/A". -/
theorem process_mtr_file_permissive_witness :
    mtrMissing mtrFrameNA = [] ∧
    (coerceNumeric (Value.str "N/A") = Value.null ∧
      ∃ dfOut, process_mtr_file mtrFrameNA = Except.ok dfOut ∧
        ∀ r ∈ mtrFrameNA.rows, rowGet (trimKeys r) "Transaction Type" ≠ Value.str "Cancel" →
          ∃ rOut ∈ dfOut.rows,
            rowGet rOut "Invoice Amount" =
              coerceNumeric (rowGet (trimKeys r) "Invoice Amount") ∧
            rowGet rOut "Order Id" = rowGet (trimKeys r) "Order Id") :=
  ⟨by decide, process_mtr_file_permissive mtrFrameNA (by decide)⟩

/-- Lookup in a string-to-string association list (used for column renames). -/
def strLookup (k : String) : List (String × String) → Option String
  | [] => none
  | (a, b) :: t => if a = k then some b else strLookup k t

/-- Rename of one column label under a pandas `rename(columns=...)` mapping:
labels outside the mapping are unchanged. -/
def renameKey (m : List (String × String)) (k : String) : String :=
  (strLookup k m).getD k

/-- Rename applied to the keys of one row. -/
def renameKeys (m : List (String × String)) (r : Row) : Row :=
  r.map (fun p => (renameKey m p.1, p.2))

/-- Header cleanup of data_processor.py line 150 (strip then lower-case),
applied to the keys of one row. -/
def lowerKeys (r : Row) : Row := r.map (fun p => (sToLower (sTrim p.1), p.2))

/-- Type-cell cleaning of data_processor.py line 153:
`payment_df['type'].str.strip().str.replace('\n', '')`; the `.str` accessor
maps a non-string cell of an object column to NaN. -/
def payTypeClean (v : Value) : Value :=
  match v with
  | Value.str s => Value.str (sRemoveChar '\n' (sTrim s))
  | _ => Value.null

/-- Payment-type value mapping of data_processor.py lines 176-183
(`Series.replace`): values outside the mapping pass through unchanged. -/
def payValueMap (v : Value) : Value :=
  if v = Value.str "Adjustment" then Value.str "Order"
  else if v = Value.str "FBA Inventory Fee" then Value.str "Order"
  else if v = Value.str "Fulfilment Fee Refund" then Value.str "Order"
  else if v = Value.str "Service Fee" then Value.str "Order"
  else if v = Value.str "Refund" then Value.str "Return"
  else v

/-- Column renames of data_processor.py lines 165-170. -/
def paymentRenames : List (String × String) :=
  [("order id", "Order Id"), ("description", "P_Description"),
   ("total", "Net Amount"), ("type", "Payment Type")]

/-- Strict net-amount coercion of data_processor.py line 173:
`.str.replace(',', '').astype(float)` applied cellwise.  A string that does
not parse as a float raises `ValueError`; a null stays NaN; a non-string cell
of an object column becomes NaN through the `.str` accessor. -/
def coerceStrictCell (v : Value) : Except PyError Value :=
  match v with
  | Value.str s =>
    match parseFloat (sRemoveChar ',' s) with
    | some q => Except.ok (Value.num q)
    | none => Except.error (PyError.valueErrorFloat s)
  | Value.null => Except.ok Value.null
  | Value.num _ => Except.ok Value.null

/-- Structural effectful map over rows, propagating the first exception (the
behaviour of a pandas column operation that raises partway). -/
def mapExcept (f : Row → Except PyError Row) : List Row → Except PyError (List Row)
  | [] => Except.ok []
  | r :: t =>
    match f r with
    | Except.error e => Except.error e
    | Except.ok r2 =>
      match mapExcept f t with
      | Except.error e => Except.error e
      | Except.ok t2 => Except.ok (r2 :: t2)

/-- data_processor.py `process_payment_file`, lines 146-193 (the transform
after the file read): strip and lower-case headers, clean the type cells
(`KeyError` when the type column is absent, line 153), drop Transfer rows,
rename onto the canonical schema, strictly coerce Net Amount (line 173,
raising on an unparseable cell), map the payment types and stamp
`Transaction Type = "Payment"` (line 186). -/
def process_payment_file (df : DataFrame) : Except PyError DataFrame :=
  let cols := df.cols.map (fun c => sToLower (sTrim c))
  let rows := df.rows.map lowerKeys
  if cols.contains "type" then
    let rows := rows.map (replaceCol "type" payTypeClean)
    let rows := rows.filter (fun r => decide (rowGet r "type" ≠ Value.str "Transfer"))
    let cols := cols.map (renameKey paymentRenames)
    let rows := rows.map (renameKeys paymentRenames)
    if cols.contains "Net Amount" then
      match mapExcept (fun r =>
          match coerceStrictCell (rowGet r "Net Amount") with
          | Except.ok v => Except.ok (setCell r "Net Amount" v)
          | Except.error e => Except.error e) rows with
      | Except.error e => Except.error e
      | Except.ok rows2 =>
        let rows3 := rows2.map (replaceCol "Payment Type" payValueMap)
        let cols2 := if cols.contains "Transaction Type" then cols else cols ++ ["Transaction Type"]
        let rows4 := rows3.map (fun r => setCell r "Transaction Type" (Value.str "Payment"))
        Except.ok ⟨cols2, rows4⟩
    else Except.error (PyError.keyError "Net Amount")
  else Except.error (PyError.keyError "type")

/-- Loose total coercion of pipeline.py lines 100-110:
`astype(str).str.replace("$", "").str.replace(",", "").str.strip()` then
`pd.to_numeric(..., errors="coerce")`: never raises; an unparseable string
becomes null, a null round-trips ("nan" reparses to NaN), a number reparses
to itself. -/
def coerceLooseCell (v : Value) : Value :=
  match v with
  | Value.str s =>
    match parseFloat (sTrim (sRemoveChar ',' (sRemoveChar '$' s))) with
    | some q => Value.num q
    | none => Value.null
  | v => v

/-- Snake-case header cleanup of pipeline.py line 94
(strip, lower-case, spaces to underscores). -/
def snakeKey (k : String) : String := sMapChar ' ' '_' (sToLower (sTrim k))

/-- Type cleanup of pipeline.py line 98: `replace("\n", "")` then `strip()`. -/
def payTypeCleanPipeline (v : Value) : Value :=
  match v with
  | Value.str s => Value.str (sTrim (sRemoveChar '\n' s))
  | _ => Value.null

/-- pipeline.py `ETLPipeline.transform_payment`, lines 87-131 (the wall-clock
timestamp of line 128 is received as the argument `now`): snake-case the
column names, clean the type cells, coerce `total` permissively with
`errors="coerce"`, drop Transfer rows, map the payment types, and stamp the
processing metadata columns. -/
def ETLPipeline.transform_payment (now : String) (df : DataFrame) : DataFrame :=
  let cols := df.cols.map snakeKey
  let rows := df.rows.map (fun r => r.map (fun p => (snakeKey p.1, p.2)))
  let rows := if cols.contains "type" then rows.map (replaceCol "type" payTypeCleanPipeline) else rows
  let rows := if cols.contains "total" then rows.map (replaceCol "total" coerceLooseCell) else rows
  let rows := if cols.contains "type" then
      (rows.filter (fun r => decide (rowGet r "type" ≠ Value.str "Transfer"))).map
        (replaceCol "type" payValueMap)
    else rows
  let cols := if cols.contains "processed_date" then cols else cols ++ ["processed_date"]
  let rows := rows.map (fun r => setCell r "processed_date" (Value.str now))
  let cols := if cols.contains "source" then cols else cols ++ ["source"]
  let rows := rows.map (fun r => setCell r "source" (Value.str "payment"))
  ⟨cols, rows⟩

/-- Decidable equality for exception-carrying results, so that closed runs
of the pipeline can be checked by evaluation. -/
instance {α : Type} [DecidableEq α] : DecidableEq (Except PyError α) := fun a b =>
  match a, b with
  | Except.ok x, Except.ok y => decidable_of_iff (x = y) (by simp)
  | Except.ok _, Except.error _ => isFalse (by simp)
  | Except.error _, Except.ok _ => isFalse (by simp)
  | Except.error e, Except.error f => decidable_of_iff (e = f) (by simp)

/-- A payment frame whose single row has the unparseable total "N/A". -/
def payFrameNA : DataFrame :=
  ⟨["order id", "type", "total"],
   [[("order id", Value.str "171-0000000-0000001"),
     ("type", Value.str "Order"),
     ("total", Value.str "N/A")]]⟩

/-- C6 (code bug): on a payment row whose total is the unparseable "N/A",
data_processor.py's `process_payment_file` raises the `astype(float)`
ValueError and aborts the batch, contradicting the permissive-parse policy;
pipeline.py's `ETLPipeline.transform_payment` (which uses
`pd.to_numeric(..., errors="coerce")`) behaves as the claim states: the row
survives with a null total. -/
theorem process_payment_file_astype_raises :
    process_payment_file payFrameNA = Except.error (PyError.valueErrorFloat "N/A") ∧
    ((ETLPipeline.transform_payment "2024-01-01T00:00:00" payFrameNA).rows.map
      (fun r => rowGet r "total")) = [Value.null] ∧
    (ETLPipeline.transform_payment "2024-01-01T00:00:00" payFrameNA).rows.length = 1 := by
  exact ⟨by decide, by decide, by decide⟩

/-- Origin of each output row of `mapExcept` on success. -/
theorem mem_mapExcept_ok (f : Row → Except PyError Row) (xs ys : List Row)
    (h : mapExcept f xs = Except.ok ys) :
    ∀ y ∈ ys, ∃ x ∈ xs, f x = Except.ok y := by
  induction xs generalizing ys with
  | nil =>
    simp only [mapExcept, Except.ok.injEq] at h
    subst h
    intro y hy
    simp at hy
  | cons x t ih =>
    simp only [mapExcept] at h
    cases hfx : f x with
    | error e => rw [hfx] at h; simp at h
    | ok r2 =>
      rw [hfx] at h
      cases hmt : mapExcept f t with
      | error e => rw [hmt] at h; simp at h
      | ok t2 =>
        rw [hmt] at h
        simp only [Except.ok.injEq] at h
        subst h
        intro y hy
        rcases List.mem_cons.mp hy with hy | hy
        · exact ⟨x, List.mem_cons_self x t, by rw [hfx, hy]⟩
        · obtain ⟨x2, hx2, hfx2⟩ := ih t2 hmt y hy
          exact ⟨x2, List.mem_cons_of_mem x hx2, hfx2⟩

/-- Keys of a row after a column assignment: each key was already a key or is
the assigned column. -/
theorem setCell_keys (P : String → Prop) (r : Row) (c : String) (v : Value)
    (hr : ∀ q ∈ r, P q.1) (hc : P c) : ∀ p ∈ setCell r c v, P p.1 := by
  intro p hp
  unfold setCell at hp
  by_cases hs : (rowLookup c r).isSome
  · rw [if_pos hs] at hp
    obtain ⟨q, hq, rfl⟩ := List.mem_map.mp hp
    unfold setEntry
    by_cases hq1 : q.1 = c
    · rw [if_pos hq1]; exact hc
    · rw [if_neg hq1]; exact hr q hq
  · rw [if_neg hs] at hp
    rcases List.mem_append.mp hp with hp | hp
    · exact hr p hp
    · simp only [List.mem_singleton] at hp
      subst hp
      exact hc

/-- The only headers the payment renames send to "Payment Type" are "type"
itself and a pre-existing literal "Payment Type". -/
theorem renameKey_payment_preimage (k : String)
    (h : renameKey paymentRenames k = "Payment Type") :
    k = "type" ∨ k = "Payment Type" := by
  simp only [renameKey, paymentRenames, strLookup] at h
  by_cases h1 : "order id" = k
  · rw [if_pos h1] at h; simp at h
  · rw [if_neg h1] at h
    by_cases h2 : "description" = k
    · rw [if_pos h2] at h; simp at h
    · rw [if_neg h2] at h
      by_cases h3 : "total" = k
      · rw [if_pos h3] at h; simp at h
      · rw [if_neg h3] at h
        by_cases h4 : "type" = k
        · exact Or.inl h4.symm
        · rw [if_neg h4] at h
          simp only [Option.getD_none] at h
          exact Or.inr h

/-- Reading a renamed row at a renamed column reads the original column,
provided no other key of the row is also sent to the target label. -/
theorem rowGet_renameKeys (m : List (String × String)) (r : Row) (s t : String)
    (hs : renameKey m s = t) :
    (∀ p ∈ r, renameKey m p.1 = t → p.1 = s) →
      rowGet (renameKeys m r) t = rowGet r s := by
  induction r with
  | nil => intro _; simp [renameKeys, rowGet, rowLookup]
  | cons q tl ih =>
    intro h
    obtain ⟨k, w⟩ := q
    by_cases hk : renameKey m k = t
    · have hks : k = s := h (k, w) (List.mem_cons_self _ _) hk
      subst hks
      simp [renameKeys, rowGet, rowLookup, hk]
    · have hkns : ¬ k = s := fun he => hk (by rw [he]; exact hs)
      have ihh := ih (fun p hp hpt => h p (List.mem_cons_of_mem _ hp) hpt)
      simp only [renameKeys, List.map_cons, rowGet, rowLookup] at ihh ⊢
      rw [if_neg hk, if_neg hkns]
      exact ihh

/-- C5: after normalization no order-report row carries transaction type
Cancel, Refund or FreeReplacement (Cancel rows are dropped, Refund and
FreeReplacement map to Return, other values pass through), and every
payment-report row carries transaction type "Payment", while the payment
type information survives in the separate "Payment Type" column as the
value-mapped cleaned original type rather than being overwritten by the
stamp.  The hypothesis `hkeys` is vacuously true of every real frame: a
trimmed lower-cased header can never equal "Payment Type". -/
theorem normalization_taxonomy (df dfM pf dfP : DataFrame)
    (hM : process_mtr_file df = Except.ok dfM)
    (hP : process_payment_file pf = Except.ok dfP)
    (hkeys : ∀ r ∈ pf.rows, ∀ p ∈ r, sToLower (sTrim p.1) ≠ "Payment Type") :
    (∀ r ∈ dfM.rows,
      rowGet r "Transaction Type" ≠ Value.str "Cancel" ∧
      rowGet r "Transaction Type" ≠ Value.str "Refund" ∧
      rowGet r "Transaction Type" ≠ Value.str "FreeReplacement") ∧
    (∀ r ∈ dfP.rows,
      rowGet r "Transaction Type" = Value.str "Payment" ∧
      ∃ r0 ∈ pf.rows,
        rowGet r "Payment Type" =
          payValueMap (payTypeClean (rowGet (lowerKeys r0) "type"))) := by
  constructor
  · simp only [process_mtr_file] at hM
    split at hM
    · simp only [Except.ok.injEq] at hM
      subst hM
      intro r hr
      obtain ⟨r2, hr2, rfl⟩ := List.mem_map.mp hr
      obtain ⟨r1, hr1, rfl⟩ := List.mem_map.mp hr2
      have hnc : rowGet r1 "Transaction Type" ≠ Value.str "Cancel" := by
        simpa using (List.mem_filter.mp hr1).2
      have e1 : rowGet (replaceCol "Invoice Amount" coerceNumeric
          (replaceCol "Transaction Type" mtrTypeMap r1)) "Transaction Type" =
          mtrTypeMap (rowGet r1 "Transaction Type") := by
        rw [rowGet_replaceCol_ne _ _ _ _ (by decide), rowGet_replaceCol_self]
      rw [e1]
      unfold mtrTypeMap
      by_cases hRef : rowGet r1 "Transaction Type" = Value.str "Refund"
      · rw [if_pos hRef]
        exact ⟨by decide, by decide, by decide⟩
      · rw [if_neg hRef]
        by_cases hFR : rowGet r1 "Transaction Type" = Value.str "FreeReplacement"
        · rw [if_pos hFR]
          exact ⟨by decide, by decide, by decide⟩
        · rw [if_neg hFR]
          exact ⟨hnc, hRef, hFR⟩
    · simp at hM
  · simp only [process_payment_file] at hP
    split at hP
    · split at hP
      · split at hP
        · simp at hP
        · simp only [Except.ok.injEq] at hP
          subst hP
          intro r hr
          obtain ⟨r5, hr5, rfl⟩ := List.mem_map.mp hr
          refine ⟨rowGet_setCell_self _ _ _, ?_⟩
          obtain ⟨r4, hr4, rfl⟩ := List.mem_map.mp hr5
          rename_i rows2 heq
          obtain ⟨r3, hr3, hg⟩ := mem_mapExcept_ok _ _ _ heq r4 hr4
          obtain ⟨r2, hr2f, rfl⟩ := List.mem_map.mp hr3
          have hr2mem := List.mem_of_mem_filter hr2f
          obtain ⟨rL, hrL, rfl⟩ := List.mem_map.mp hr2mem
          obtain ⟨r0, hr0, rfl⟩ := List.mem_map.mp hrL
          refine ⟨r0, hr0, ?_⟩
          cases hcv : coerceStrictCell (rowGet (renameKeys paymentRenames
              (replaceCol "type" payTypeClean (lowerKeys r0))) "Net Amount") with
          | error e => rw [hcv] at hg; simp at hg
          | ok v =>
            rw [hcv] at hg
            simp only [Except.ok.injEq] at hg
            subst hg
            rw [rowGet_setCell_ne _ _ _ _ (by decide)]
            rw [rowGet_replaceCol_self]
            rw [rowGet_setCell_ne _ _ _ _ (by decide)]
            have hkey : ∀ p ∈ replaceCol "type" payTypeClean (lowerKeys r0),
                renameKey paymentRenames p.1 = "Payment Type" → p.1 = "type" := by
              refine setCell_keys
                (fun k => renameKey paymentRenames k = "Payment Type" → k = "type")
                (lowerKeys r0) "type" (payTypeClean (rowGet (lowerKeys r0) "type")) ?_ ?_
              · intro q hq hpt
                obtain ⟨q0, hq0, rfl⟩ := List.mem_map.mp hq
                rcases renameKey_payment_preimage _ hpt with hty | hbad
                · exact hty
                · exact absurd hbad (hkeys r0 hr0 q0 hq0)
              · intro _
                rfl
            rw [rowGet_renameKeys paymentRenames _ "type" "Payment Type" (by decide) hkey]
            rw [rowGet_replaceCol_self]
      · simp at hP
    · simp at hP

/-- Frame projection of a successful run (the error case is unreachable at
the points of use and maps to the empty frame). -/
def okD (e : Except PyError DataFrame) : DataFrame :=
  match e with
  | Except.ok d => d
  | Except.error _ => ⟨[], []⟩

/-- A well-formed payment frame with one Adjustment row. -/
def payFrameDemo : DataFrame :=
  ⟨["order id", "type", "total"],
   [[("order id", Value.str "171-0000000-0000001"),
     ("type", Value.str "Adjustment"),
     ("total", Value.str "1,234")]]⟩

/-- Witness for C5 on concrete MTR and payment frames. -/
theorem normalization_taxonomy_witness :
    process_mtr_file mtrFrameNA = Except.ok (okD (process_mtr_file mtrFrameNA)) ∧
    process_payment_file payFrameDemo = Except.ok (okD (process_payment_file payFrameDemo)) ∧
    (∀ r ∈ payFrameDemo.rows, ∀ p ∈ r, sToLower (sTrim p.1) ≠ "Payment Type") ∧
    ((∀ r ∈ (okD (process_mtr_file mtrFrameNA)).rows,
      rowGet r "Transaction Type" ≠ Value.str "Cancel" ∧
      rowGet r "Transaction Type" ≠ Value.str "Refund" ∧
      rowGet r "Transaction Type" ≠ Value.str "FreeReplacement") ∧
    (∀ r ∈ (okD (process_payment_file payFrameDemo)).rows,
      rowGet r "Transaction Type" = Value.str "Payment" ∧
      ∃ r0 ∈ payFrameDemo.rows,
        rowGet r "Payment Type" =
          payValueMap (payTypeClean (rowGet (lowerKeys r0) "type")))) :=
  ⟨by decide, by decide, by decide,
    normalization_taxonomy mtrFrameNA (okD (process_mtr_file mtrFrameNA))
      payFrameDemo (okD (process_payment_file payFrameDemo))
      (by decide) (by decide) (by decide)⟩

/-- Key predicate of the equi-join (pandas `merge` factorizes the key column,
so a null key matches a null key). -/
def keyMatches (l r : Row) : Bool :=
  decide (rowGet r "Order Id" = rowGet l "Order Id")

/-- Rows of the (renamed) payment frame matching one MTR row's key. -/
def matchesOf (prows : List Row) (l : Row) : List Row := prows.filter (keyMatches l)

/-- Left-match test for a right-side row. -/
def hasLeftMatch (lrows : List Row) (r : Row) : Bool :=
  lrows.any (fun l => keyMatches l r)

/-- Suffix `_x` that pandas appends to an overlapping non-key left column. -/
def suffixL (rcols : List String) (c : String) : String :=
  if c ≠ "Order Id" ∧ rcols.contains c then c ++ "_x" else c

/-- Suffix `_y` that pandas appends to an overlapping non-key right column. -/
def suffixR (lcols : List String) (c : String) : String :=
  if lcols.contains c then c ++ "_y" else c

/-- One merged row of the outer join: the left columns (the key column
carrying the join key even when the left side is absent) followed by the
non-key right columns, the absent side padded with nulls, and overlapping
non-key labels suffixed. -/
def mergeRow (lcols rcols : List String) (lrow rrow : Option Row) : Row :=
  let keyV :=
    match lrow with
    | some l => rowGet l "Order Id"
    | none =>
      match rrow with
      | some r => rowGet r "Order Id"
      | none => Value.null
  (lcols.map (fun c =>
    (suffixL rcols c,
     if c = "Order Id" then keyV
     else
       match lrow with
       | some l => rowGet l c
       | none => Value.null))) ++
  ((rcols.filter (fun c => decide (c ≠ "Order Id"))).map (fun c =>
    (suffixR lcols c,
     match rrow with
     | some r => rowGet r c
     | none => Value.null)))

/-- Structural concat-map used to enumerate the join. -/
def bindRows (f : Row → List Row) : List Row → List Row
  | [] => []
  | x :: t => f x ++ bindRows f t

/-- The merged rows one MTR row contributes: one per key match, or a single
null-padded row when it has no match. -/
def mergeLeft (lcols rcols : List String) (prows : List Row) (l : Row) : List Row :=
  let ms := matchesOf prows l
  if ms.isEmpty then [mergeRow lcols rcols (some l) none]
  else ms.map (fun r => mergeRow lcols rcols (some l) (some r))

/-- Column renames of data_processor.py lines 221-226 (no-ops on frames the
payment normalizer produces, applied for fidelity). -/
def mergeRenames : List (String × String) :=
  [("Order ID", "Order Id"), ("Description", "P_Description"), ("Amount", "Net Amount")]

/-- The payment frame after merge_datasets' renames. -/
def paymentRenamed (payment : DataFrame) : DataFrame :=
  ⟨payment.cols.map (renameKey mergeRenames), payment.rows.map (renameKeys mergeRenames)⟩

/-- data_processor.py `merge_datasets`, lines 200-233: rename the payment
columns, then `pd.merge(mtr, payment, on="Order Id", how="outer")`: one
merged row per matching key pair, unmatched rows of either side padded with
nulls on the other side, overlapping non-key labels suffixed `_x`/`_y`. -/
def merge_datasets (mtr payment : DataFrame) : DataFrame :=
  let pay := paymentRenamed payment
  ⟨(mtr.cols.map (suffixL pay.cols)) ++
     ((pay.cols.filter (fun c => decide (c ≠ "Order Id"))).map (suffixR mtr.cols)),
   (bindRows (mergeLeft mtr.cols pay.cols pay.rows) mtr.rows) ++
   ((pay.rows.filter (fun r => ! hasLeftMatch mtr.rows r)).map
      (fun r => mergeRow mtr.cols pay.cols none (some r)))⟩

/-- Matched key pairs of the join, counted with multiplicity. -/
def matchedPairs (mtr pay : DataFrame) : ℕ :=
  (mtr.rows.map (fun l => (matchesOf pay.rows l).length)).sum

/-- MTR rows with no key match. -/
def leftUnmatched (mtr pay : DataFrame) : ℕ :=
  (mtr.rows.filter (fun l => (matchesOf pay.rows l).isEmpty)).length

/-- Payment rows with no key match. -/
def rightUnmatched (mtr pay : DataFrame) : ℕ :=
  (pay.rows.filter (fun r => ! hasLeftMatch mtr.rows r)).length

theorem data_append (s t : String) : (s ++ t).data = s.data ++ t.data := by
  obtain ⟨sd⟩ := s
  obtain ⟨td⟩ := t
  rfl

theorem append_two_getLast (l : List Char) (a b : Char) :
    (l ++ [a, b]).getLast? = some b := by
  rw [show l ++ [a, b] = (l ++ [a]) ++ [b] by simp]
  exact List.getLast?_concat _

/-- A string ending in a two-character suffix differs from any string whose
last character differs from the suffix's. -/
theorem append_suffix_ne (s u : String) (a b : Char)
    (hu : u.data.getLast? ≠ some b) : ¬ s ++ String.mk [a, b] = u := by
  intro he
  apply hu
  rw [← he, data_append]
  exact append_two_getLast _ _ _

theorem rowLookup_map_nullat (cols : List String) (g : String → String × Value) (c : String)
    (h : ∀ d ∈ cols, (g d).1 = c → (g d).2 = Value.null) :
    rowLookup c (cols.map g) = none ∨ rowLookup c (cols.map g) = some Value.null := by
  induction cols with
  | nil => exact Or.inl rfl
  | cons d t ih =>
    simp only [List.map_cons, rowLookup]
    by_cases hd : (g d).1 = c
    · cases hg : g d with
      | mk k v =>
        have hv : v = Value.null := by
          have := h d (List.mem_cons_self _ _) hd
          rw [hg] at this
          exact this
        rw [hg] at hd
        simp only at hd
        rw [if_pos hd, hv]
        exact Or.inr rfl
    · cases hg : g d with
      | mk k v =>
        rw [hg] at hd
        simp only at hd
        rw [if_neg hd]
        exact ih (fun e he hec => h e (List.mem_cons_of_mem _ he) hec)

theorem rowLookup_mapcols_none (cols : List String) (g : String → String × Value) (c : String)
    (h : ∀ d ∈ cols, (g d).1 ≠ c) : rowLookup c (cols.map g) = none := by
  induction cols with
  | nil => rfl
  | cons d t ih =>
    simp only [List.map_cons, rowLookup]
    cases hg : g d with
    | mk k v =>
      have hd := h d (List.mem_cons_self _ _)
      rw [hg] at hd
      simp only at hd
      rw [if_neg hd]
      exact ih (fun e he => h e (List.mem_cons_of_mem _ he))

theorem rowGet_append_null (r1 r2 : Row) (c : String)
    (h1 : rowLookup c r1 = none ∨ rowLookup c r1 = some Value.null)
    (h2 : rowLookup c r2 = none ∨ rowLookup c r2 = some Value.null) :
    rowGet (r1 ++ r2) c = Value.null := by
  unfold rowGet
  rw [lookup_append_row]
  rcases h1 with h1 | h1 <;> rw [h1] <;> [skip; rfl]
  rcases h2 with h2 | h2 <;> rw [h2] <;> rfl

/-- An MTR row with no key match is padded with a null in every column that
is not an MTR column (in particular "Net Amount"). -/
theorem mergeRow_left_unmatched_null (lcols rcols : List String) (l : Row) (c : String)
    (hcl : c ∉ lcols) (hx : ∀ s : String, ¬ s ++ "_x" = c) :
    rowGet (mergeRow lcols rcols (some l) none) c = Value.null := by
  unfold mergeRow
  apply rowGet_append_null
  · refine Or.inl (rowLookup_mapcols_none _ _ _ ?_)
    intro d hd
    unfold suffixL
    by_cases hs : d ≠ "Order Id" ∧ rcols.contains d
    · rw [if_pos hs]
      exact hx d
    · rw [if_neg hs]
      intro he
      exact hcl (he ▸ hd)
  · refine rowLookup_map_nullat _ _ _ ?_
    intro d _ _
    rfl

/-- A payment row with no key match is padded with a null in every non-key
column that is not a payment column (in particular "Invoice Amount"). -/
theorem mergeRow_right_unmatched_null (lcols rcols : List String) (r : Row) (c : String)
    (hcr : c ∉ rcols) (hy : ∀ s : String, ¬ s ++ "_y" = c) (hoid : c ≠ "Order Id") :
    rowGet (mergeRow lcols rcols none (some r)) c = Value.null := by
  unfold mergeRow
  apply rowGet_append_null
  · refine rowLookup_map_nullat _ _ _ ?_
    intro d _ hdc
    by_cases hd : d = "Order Id"
    · exfalso
      apply hoid
      rw [← hdc, hd]
      rfl
    · simp only [hd, if_false]
  · refine Or.inl (rowLookup_mapcols_none _ _ _ ?_)
    intro d hd
    unfold suffixR
    by_cases hs : lcols.contains d
    · rw [if_pos hs]
      exact hy d
    · rw [if_neg hs]
      intro he
      exact hcr (he ▸ List.mem_of_mem_filter hd)

theorem mem_bindRows (f : Row → List Row) (xs : List Row) (x : Row) (y : Row)
    (hx : x ∈ xs) (hy : y ∈ f x) : y ∈ bindRows f xs := by
  induction xs with
  | nil => simp at hx
  | cons a t ih =>
    rcases List.mem_cons.mp hx with h | h
    · subst h
      exact List.mem_append.mpr (Or.inl hy)
    · exact List.mem_append.mpr (Or.inr (ih h))

theorem bindRows_mergeLeft_length (lcols rcols : List String) (prows : List Row)
    (xs : List Row) :
    (bindRows (mergeLeft lcols rcols prows) xs).length =
      (xs.map (fun l => (matchesOf prows l).length)).sum +
      (xs.filter (fun l => (matchesOf prows l).isEmpty)).length := by
  induction xs with
  | nil => rfl
  | cons x t ih =>
    simp only [bindRows, List.length_append, List.map_cons, List.sum_cons, List.filter_cons]
    by_cases hx : (matchesOf prows x).isEmpty
    · have hms : matchesOf prows x = [] := List.isEmpty_iff.mp hx
      rw [ih]
      simp only [mergeLeft, hms]
      simp
      omega
    · have hms : ¬ matchesOf prows x = [] := fun he => hx (by rw [he]; rfl)
      rw [ih]
      simp only [mergeLeft]
      rw [if_neg (by simpa using hms)]
      simp only [List.length_map, hx]
      simp
      omega

/-- C3: `merge_datasets` is the full outer equi-join on the order id: the
merged row count is matched pairs plus left-unmatched plus right-unmatched;
every matching pair of surviving rows produces its merged row (relational
cross-product under duplicate keys); an unmatched MTR row survives with a
null "Net Amount"; an unmatched payment row survives with a null
"Invoice Amount"; no row is dropped. -/
theorem merge_datasets_outer_join (mtr payment : DataFrame)
    (hNA : "Net Amount" ∉ mtr.cols)
    (hIA : "Invoice Amount" ∉ (paymentRenamed payment).cols) :
    (merge_datasets mtr payment).rows.length =
      matchedPairs mtr (paymentRenamed payment) +
      leftUnmatched mtr (paymentRenamed payment) +
      rightUnmatched mtr (paymentRenamed payment) ∧
    (∀ l ∈ mtr.rows, ∀ r ∈ (paymentRenamed payment).rows, keyMatches l r = true →
      mergeRow mtr.cols (paymentRenamed payment).cols (some l) (some r) ∈
        (merge_datasets mtr payment).rows) ∧
    (∀ l ∈ mtr.rows, matchesOf (paymentRenamed payment).rows l = [] →
      mergeRow mtr.cols (paymentRenamed payment).cols (some l) none ∈
        (merge_datasets mtr payment).rows ∧
      rowGet (mergeRow mtr.cols (paymentRenamed payment).cols (some l) none)
        "Net Amount" = Value.null) ∧
    (∀ r ∈ (paymentRenamed payment).rows, hasLeftMatch mtr.rows r = false →
      mergeRow mtr.cols (paymentRenamed payment).cols none (some r) ∈
        (merge_datasets mtr payment).rows ∧
      rowGet (mergeRow mtr.cols (paymentRenamed payment).cols none (some r))
        "Invoice Amount" = Value.null) := by
  refine ⟨?_, ?_, ?_, ?_⟩
  · simp only [merge_datasets, List.length_append, List.length_map]
    rw [bindRows_mergeLeft_length]
    rfl
  · intro l hl r hr hk
    have hrm : r ∈ matchesOf (paymentRenamed payment).rows l :=
      List.mem_filter.mpr ⟨hr, hk⟩
    have hne : ¬ (matchesOf (paymentRenamed payment).rows l).isEmpty = true := by
      intro he
      rw [List.isEmpty_iff.mp he] at hrm
      simp at hrm
    apply List.mem_append.mpr
    refine Or.inl (mem_bindRows _ _ l _ hl ?_)
    unfold mergeLeft
    rw [if_neg hne]
    exact List.mem_map_of_mem _ hrm
  · intro l hl hempty
    constructor
    · apply List.mem_append.mpr
      refine Or.inl (mem_bindRows _ _ l _ hl ?_)
      unfold mergeLeft
      rw [hempty]
      simp
    · exact mergeRow_left_unmatched_null _ _ _ _ hNA
        (fun s => append_suffix_ne s _ '_' 'x' (by decide))
  · intro r hr hnomatch
    constructor
    · apply List.mem_append.mpr
      refine Or.inr (List.mem_map_of_mem _ (List.mem_filter.mpr ⟨hr, ?_⟩))
      rw [hnomatch]
      rfl
    · exact mergeRow_right_unmatched_null _ _ _ _ hIA
        (fun s => append_suffix_ne s _ '_' 'y' (by decide)) (by decide)

/-- Witness for C3 on the concrete MTR and payment frames. -/
theorem merge_datasets_outer_join_witness :
    "Net Amount" ∉ mtrFrameNA.cols ∧
    "Invoice Amount" ∉ (paymentRenamed payFrameDemo).cols ∧
    ((merge_datasets mtrFrameNA payFrameDemo).rows.length =
      matchedPairs mtrFrameNA (paymentRenamed payFrameDemo) +
      leftUnmatched mtrFrameNA (paymentRenamed payFrameDemo) +
      rightUnmatched mtrFrameNA (paymentRenamed payFrameDemo) ∧
    (∀ l ∈ mtrFrameNA.rows, ∀ r ∈ (paymentRenamed payFrameDemo).rows, keyMatches l r = true →
      mergeRow mtrFrameNA.cols (paymentRenamed payFrameDemo).cols (some l) (some r) ∈
        (merge_datasets mtrFrameNA payFrameDemo).rows) ∧
    (∀ l ∈ mtrFrameNA.rows, matchesOf (paymentRenamed payFrameDemo).rows l = [] →
      mergeRow mtrFrameNA.cols (paymentRenamed payFrameDemo).cols (some l) none ∈
        (merge_datasets mtrFrameNA payFrameDemo).rows ∧
      rowGet (mergeRow mtrFrameNA.cols (paymentRenamed payFrameDemo).cols (some l) none)
        "Net Amount" = Value.null) ∧
    (∀ r ∈ (paymentRenamed payFrameDemo).rows, hasLeftMatch mtrFrameNA.rows r = false →
      mergeRow mtrFrameNA.cols (paymentRenamed payFrameDemo).cols none (some r) ∈
        (merge_datasets mtrFrameNA payFrameDemo).rows ∧
      rowGet (mergeRow mtrFrameNA.cols (paymentRenamed payFrameDemo).cols none (some r))
        "Invoice Amount" = Value.null)) :=
  ⟨by decide, by decide,
    merge_datasets_outer_join mtrFrameNA payFrameDemo (by decide) (by decide)⟩

/-- The six classification buckets of `process_merged_data`. -/
structure Categories where
  removal_orders : List Row
  returns : List Row
  negative_payout : List Row
  order_payment_received : List Row
  order_not_applicable : List Row
  payment_pending : List Row
deriving DecidableEq

/-- pandas `Series.notna` on one cell. -/
def notnaB (v : Value) : Bool := decide (v ≠ Value.null)

/-- pandas `col.str.len() == 10` on one cell: true only for a string of
length exactly 10 (`.str.len()` of a non-string cell is NaN, and
`NaN == 10` is false). -/
def isStrLen10 (v : Value) : Bool :=
  match v with
  | Value.str s => decide (s.length = 10)
  | _ => false

/-- pandas `col < 0` on one cell: true only for a negative number
(`NaN < 0` is false). -/
def isNegNum (v : Value) : Bool :=
  match v with
  | Value.num q => decide (q < 0)
  | _ => false

/-- data_processor.py `process_merged_data`, lines 240-297: restrict to rows
with a non-null Order Id, then compute the six buckets by independent
predicates; indexing an absent column raises `KeyError` ("Order Id" first,
then "Transaction Type" and "Invoice Amount" at the returns bucket, then
"Net Amount" at negative_payout). -/
def process_merged_data (df : DataFrame) : Except PyError Categories :=
  if df.cols.contains "Order Id" then
    let valid := df.rows.filter (fun r => notnaB (rowGet r "Order Id"))
    let removal := valid.filter (fun r => isStrLen10 (rowGet r "Order Id"))
    if df.cols.contains "Transaction Type" then
      if df.cols.contains "Invoice Amount" then
        let rets := valid.filter (fun r =>
          decide (rowGet r "Transaction Type" = Value.str "Return") &&
          notnaB (rowGet r "Invoice Amount"))
        if df.cols.contains "Net Amount" then
          Except.ok
            ⟨removal, rets,
             valid.filter (fun r =>
               decide (rowGet r "Transaction Type" = Value.str "Payment") &&
               isNegNum (rowGet r "Net Amount")),
             valid.filter (fun r =>
               notnaB (rowGet r "Net Amount") && notnaB (rowGet r "Invoice Amount")),
             valid.filter (fun r =>
               notnaB (rowGet r "Net Amount") && ! notnaB (rowGet r "Invoice Amount")),
             valid.filter (fun r =>
               ! notnaB (rowGet r "Net Amount") && notnaB (rowGet r "Invoice Amount"))⟩
        else Except.error (PyError.keyError "Net Amount")
      else Except.error (PyError.keyError "Invoice Amount")
    else Except.error (PyError.keyError "Transaction Type")
  else Except.error (PyError.keyError "Order Id")

/-- C4: on a merged frame carrying the four addressed columns,
`process_merged_data` returns the six non-exclusive buckets characterized by
their independently evaluated predicates over the rows with non-null order
id; consequently a row with a length-10 order id, transaction type "Return"
and both amounts non-null is simultaneously in removal_orders, returns and
order_payment_received. -/
theorem process_merged_data_buckets (df : DataFrame)
    (h1 : df.cols.contains "Order Id" = true)
    (h2 : df.cols.contains "Transaction Type" = true)
    (h3 : df.cols.contains "Invoice Amount" = true)
    (h4 : df.cols.contains "Net Amount" = true) :
    ∃ cats, process_merged_data df = Except.ok cats ∧
      (∀ r, r ∈ cats.removal_orders ↔
        r ∈ df.rows ∧ rowGet r "Order Id" ≠ Value.null ∧
        isStrLen10 (rowGet r "Order Id") = true) ∧
      (∀ r, r ∈ cats.returns ↔
        r ∈ df.rows ∧ rowGet r "Order Id" ≠ Value.null ∧
        rowGet r "Transaction Type" = Value.str "Return" ∧
        rowGet r "Invoice Amount" ≠ Value.null) ∧
      (∀ r, r ∈ cats.negative_payout ↔
        r ∈ df.rows ∧ rowGet r "Order Id" ≠ Value.null ∧
        rowGet r "Transaction Type" = Value.str "Payment" ∧
        isNegNum (rowGet r "Net Amount") = true) ∧
      (∀ r, r ∈ cats.order_payment_received ↔
        r ∈ df.rows ∧ rowGet r "Order Id" ≠ Value.null ∧
        rowGet r "Net Amount" ≠ Value.null ∧
        rowGet r "Invoice Amount" ≠ Value.null) ∧
      (∀ r, r ∈ cats.order_not_applicable ↔
        r ∈ df.rows ∧ rowGet r "Order Id" ≠ Value.null ∧
        rowGet r "Net Amount" ≠ Value.null ∧
        rowGet r "Invoice Amount" = Value.null) ∧
      (∀ r, r ∈ cats.payment_pending ↔
        r ∈ df.rows ∧ rowGet r "Order Id" ≠ Value.null ∧
        rowGet r "Net Amount" = Value.null ∧
        rowGet r "Invoice Amount" ≠ Value.null) ∧
      (∀ r ∈ df.rows, rowGet r "Order Id" ≠ Value.null →
        isStrLen10 (rowGet r "Order Id") = true →
        rowGet r "Transaction Type" = Value.str "Return" →
        rowGet r "Invoice Amount" ≠ Value.null →
        rowGet r "Net Amount" ≠ Value.null →
        r ∈ cats.removal_orders ∧ r ∈ cats.returns ∧
        r ∈ cats.order_payment_received) := by
  have hok : process_merged_data df = Except.ok
      ⟨(df.rows.filter (fun r => notnaB (rowGet r "Order Id"))).filter
         (fun r => isStrLen10 (rowGet r "Order Id")),
       (df.rows.filter (fun r => notnaB (rowGet r "Order Id"))).filter
         (fun r => decide (rowGet r "Transaction Type" = Value.str "Return") &&
           notnaB (rowGet r "Invoice Amount")),
       (df.rows.filter (fun r => notnaB (rowGet r "Order Id"))).filter
         (fun r => decide (rowGet r "Transaction Type" = Value.str "Payment") &&
           isNegNum (rowGet r "Net Amount")),
       (df.rows.filter (fun r => notnaB (rowGet r "Order Id"))).filter
         (fun r => notnaB (rowGet r "Net Amount") && notnaB (rowGet r "Invoice Amount")),
       (df.rows.filter (fun r => notnaB (rowGet r "Order Id"))).filter
         (fun r => notnaB (rowGet r "Net Amount") && ! notnaB (rowGet r "Invoice Amount")),
       (df.rows.filter (fun r => notnaB (rowGet r "Order Id"))).filter
         (fun r => ! notnaB (rowGet r "Net Amount") && notnaB (rowGet r "Invoice Amount"))⟩ := by
    simp only [process_merged_data, h1, h2, h3, h4, if_true]
  refine ⟨_, hok, ?_, ?_, ?_, ?_, ?_, ?_, ?_⟩
  · intro r
    simp [List.mem_filter, notnaB, and_assoc]
    try tauto
  · intro r
    simp [List.mem_filter, notnaB, and_assoc]
    try tauto
  · intro r
    simp [List.mem_filter, notnaB, and_assoc]
    try tauto
  · intro r
    simp [List.mem_filter, notnaB, and_assoc]
    try tauto
  · intro r
    simp [List.mem_filter, notnaB, and_assoc]
    try tauto
  · intro r
    simp [List.mem_filter, notnaB, and_assoc]
    try tauto
  · intro r hr hoid hlen htt hinv hnet
    refine ⟨?_, ?_, ?_⟩
    · exact List.mem_filter.mpr
        ⟨List.mem_filter.mpr ⟨hr, by simp [notnaB, hoid]⟩, hlen⟩
    · exact List.mem_filter.mpr
        ⟨List.mem_filter.mpr ⟨hr, by simp [notnaB, hoid]⟩, by simp [notnaB, htt, hinv]⟩
    · exact List.mem_filter.mpr
        ⟨List.mem_filter.mpr ⟨hr, by simp [notnaB, hoid]⟩, by simp [notnaB, hnet, hinv]⟩

/-- A merged frame with one fully-populated Return row with a length-10
order id. -/
def mergedFrameDemo : DataFrame :=
  ⟨["Order Id", "Transaction Type", "Invoice Amount", "Net Amount"],
   [[("Order Id", Value.str "AB1234567X"),
     ("Transaction Type", Value.str "Return"),
     ("Invoice Amount", Value.num (signedInt false 1000)),
     ("Net Amount", Value.num (signedInt false 500))]]⟩

/-- Witness for C4 on the concrete merged frame. -/
theorem process_merged_data_buckets_witness :
    mergedFrameDemo.cols.contains "Order Id" = true ∧
    mergedFrameDemo.cols.contains "Transaction Type" = true ∧
    mergedFrameDemo.cols.contains "Invoice Amount" = true ∧
    mergedFrameDemo.cols.contains "Net Amount" = true ∧
    (∃ cats, process_merged_data mergedFrameDemo = Except.ok cats ∧
      (∀ r, r ∈ cats.removal_orders ↔
        r ∈ mergedFrameDemo.rows ∧ rowGet r "Order Id" ≠ Value.null ∧
        isStrLen10 (rowGet r "Order Id") = true) ∧
      (∀ r, r ∈ cats.returns ↔
        r ∈ mergedFrameDemo.rows ∧ rowGet r "Order Id" ≠ Value.null ∧
        rowGet r "Transaction Type" = Value.str "Return" ∧
        rowGet r "Invoice Amount" ≠ Value.null) ∧
      (∀ r, r ∈ cats.negative_payout ↔
        r ∈ mergedFrameDemo.rows ∧ rowGet r "Order Id" ≠ Value.null ∧
        rowGet r "Transaction Type" = Value.str "Payment" ∧
        isNegNum (rowGet r "Net Amount") = true) ∧
      (∀ r, r ∈ cats.order_payment_received ↔
        r ∈ mergedFrameDemo.rows ∧ rowGet r "Order Id" ≠ Value.null ∧
        rowGet r "Net Amount" ≠ Value.null ∧
        rowGet r "Invoice Amount" ≠ Value.null) ∧
      (∀ r, r ∈ cats.order_not_applicable ↔
        r ∈ mergedFrameDemo.rows ∧ rowGet r "Order Id" ≠ Value.null ∧
        rowGet r "Net Amount" ≠ Value.null ∧
        rowGet r "Invoice Amount" = Value.null) ∧
      (∀ r, r ∈ cats.payment_pending ↔
        r ∈ mergedFrameDemo.rows ∧ rowGet r "Order Id" ≠ Value.null ∧
        rowGet r "Net Amount" = Value.null ∧
        rowGet r "Invoice Amount" ≠ Value.null) ∧
      (∀ r ∈ mergedFrameDemo.rows, rowGet r "Order Id" ≠ Value.null →
        isStrLen10 (rowGet r "Order Id") = true →
        rowGet r "Transaction Type" = Value.str "Return" →
        rowGet r "Invoice Amount" ≠ Value.null →
        rowGet r "Net Amount" ≠ Value.null →
        r ∈ cats.removal_orders ∧ r ∈ cats.returns ∧
        r ∈ cats.order_payment_received)) :=
  ⟨by decide, by decide, by decide, by decide,
    process_merged_data_buckets mergedFrameDemo
      (by decide) (by decide) (by decide) (by decide)⟩

/-- Row-level `check_tolerance` of data_processor.py lines 317-334, with the
Python evaluation order: `row["Net Amount"]` is read first (`KeyError` when
absent), the null test on it short-circuits before `row["Invoice Amount"]`
is read, `== 0` succeeds only on a numeric zero, and the division raises
`TypeError` on non-numeric operands.  `check_tolerance` above is the same
source function restricted to the numeric-or-null amounts the pipeline
produces. -/
def check_tolerance_row (r : Row) : Except PyError (Option String) :=
  match rowLookup "Net Amount" r with
  | none => Except.error (PyError.keyError "Net Amount")
  | some pna =>
    if pna = Value.null then Except.ok none
    else
      match rowLookup "Invoice Amount" r with
      | none => Except.error (PyError.keyError "Invoice Amount")
      | some inv =>
        if inv = Value.null then Except.ok none
        else if inv = Value.num 0 then Except.ok none
        else
          match pna, inv with
          | Value.num p, Value.num i => Except.ok (toleranceVerdict p (p / i * 100))
          | _, _ => Except.error PyError.typeError

/-- The cell written into the "Tolerance_Status" column for a verdict. -/
def verdictValue (v : Option String) : Value :=
  match v with
  | some s => Value.str s
  | none => Value.null

/-- data_processor.py `calculate_tolerance`, lines 304-346: copy the frame
and assign the "Tolerance_Status" column from the row-wise `check_tolerance`
(`df.apply(..., axis=1)`); an exception of any row propagates. -/
def calculate_tolerance (df : DataFrame) : Except PyError DataFrame :=
  match mapExcept (fun r =>
      match check_tolerance_row r with
      | Except.ok v => Except.ok (setCell r "Tolerance_Status" (verdictValue v))
      | Except.error e => Except.error e) df.rows with
  | Except.error e => Except.error e
  | Except.ok rows =>
    Except.ok ⟨if df.cols.contains "Tolerance_Status" then df.cols
               else df.cols ++ ["Tolerance_Status"], rows⟩

/-- Pointwise success of `mapExcept`, with the order-preserving
correspondence between input and output rows. -/
theorem mapExcept_ok_of_all (f : Row → Except PyError Row) (xs : List Row)
    (h : ∀ x ∈ xs, isOkE (f x) = true) :
    ∃ ys, mapExcept f xs = Except.ok ys ∧ ys.length = xs.length ∧
      ∀ pr ∈ xs.zip ys, f pr.1 = Except.ok pr.2 := by
  induction xs with
  | nil =>
    refine ⟨[], rfl, rfl, ?_⟩
    intro pr hpr
    simp at hpr
  | cons x t ih =>
    have hx := h x (List.mem_cons_self _ _)
    cases hfx : f x with
    | error e => rw [hfx] at hx; simp [isOkE] at hx
    | ok y =>
      obtain ⟨ys, hys, hlen, hcorr⟩ := ih (fun z hz => h z (List.mem_cons_of_mem _ hz))
      refine ⟨y :: ys, ?_, by simp [hlen], ?_⟩
      · simp only [mapExcept, hfx, hys]
      · intro pr hpr
        rw [List.zip_cons_cons] at hpr
        rcases List.mem_cons.mp hpr with hpr | hpr
        · subst hpr
          exact hfx
        · exact hcorr pr hpr

/-- C10: on a frame whose rows are all in the domain of the row-wise check
(as every merged frame of the pipeline is) and that does not already carry a
"Tolerance_Status" column, `calculate_tolerance` is a pure extension: same
rows in the same order, every other column unchanged, and exactly the one
added column, holding the verdict of the corresponding input row.  (The
embedding is pure, so that the input frame itself cannot be mutated.) -/
theorem calculate_tolerance_frame (df : DataFrame)
    (hdom : ∀ r ∈ df.rows, isOkE (check_tolerance_row r) = true)
    (hts : df.cols.contains "Tolerance_Status" = false) :
    ∃ dfT, calculate_tolerance df = Except.ok dfT ∧
      dfT.cols = df.cols ++ ["Tolerance_Status"] ∧
      dfT.rows.length = df.rows.length ∧
      ∀ pr ∈ df.rows.zip dfT.rows,
        (∀ c, c ≠ "Tolerance_Status" → rowGet pr.2 c = rowGet pr.1 c) ∧
        ∃ v, check_tolerance_row pr.1 = Except.ok v ∧
          rowGet pr.2 "Tolerance_Status" = verdictValue v := by
  have hall : ∀ r ∈ df.rows, isOkE ((fun r =>
      match check_tolerance_row r with
      | Except.ok v => Except.ok (setCell r "Tolerance_Status" (verdictValue v))
      | Except.error e => Except.error e) r) = true := by
    intro r hr
    have := hdom r hr
    cases hc : check_tolerance_row r with
    | error e => rw [hc] at this; simp [isOkE] at this
    | ok v => simp [hc, isOkE]
  obtain ⟨ys, hys, hlen, hcorr⟩ := mapExcept_ok_of_all _ df.rows hall
  refine ⟨⟨df.cols ++ ["Tolerance_Status"], ys⟩, ?_, rfl, hlen, ?_⟩
  · unfold calculate_tolerance
    rw [hys, hts]
    simp
  · intro pr hpr
    have hf := hcorr pr hpr
    cases hc : check_tolerance_row pr.1 with
    | error e => rw [hc] at hf; simp at hf
    | ok v =>
      rw [hc] at hf
      simp only [Except.ok.injEq] at hf
      refine ⟨?_, v, rfl, ?_⟩
      · intro c hcne
        rw [← hf]
        exact rowGet_setCell_ne _ _ _ _ hcne
      · rw [← hf]
        exact rowGet_setCell_self _ _ _

/-- A merged-shape frame whose single row has a null net amount. -/
def tolFrameDemo : DataFrame :=
  ⟨["Order Id", "Transaction Type", "Invoice Amount", "Net Amount"],
   [[("Order Id", Value.str "AB1234567X"),
     ("Transaction Type", Value.str "Return"),
     ("Invoice Amount", Value.num (signedInt false 1000)),
     ("Net Amount", Value.null)]]⟩

/-- Witness for C10 on the concrete frame. -/
theorem calculate_tolerance_frame_witness :
    (∀ r ∈ tolFrameDemo.rows, isOkE (check_tolerance_row r) = true) ∧
    tolFrameDemo.cols.contains "Tolerance_Status" = false ∧
    (∃ dfT, calculate_tolerance tolFrameDemo = Except.ok dfT ∧
      dfT.cols = tolFrameDemo.cols ++ ["Tolerance_Status"] ∧
      dfT.rows.length = tolFrameDemo.rows.length ∧
      ∀ pr ∈ tolFrameDemo.rows.zip dfT.rows,
        (∀ c, c ≠ "Tolerance_Status" → rowGet pr.2 c = rowGet pr.1 c) ∧
        ∃ v, check_tolerance_row pr.1 = Except.ok v ∧
          rowGet pr.2 "Tolerance_Status" = verdictValue v) :=
  ⟨by decide, by decide,
    calculate_tolerance_frame tolFrameDemo (by decide) (by decide)⟩

/-- data_processor.py `process_files`, lines 349-382: the pipeline through
normalize → merge → classify → tolerance.  Lines 384-442 compute summary
statistics from these results and are reached only when every stage above
has succeeded. -/
def process_files (mtr payment : DataFrame) :
    Except PyError (DataFrame × Categories × DataFrame) :=
  match process_mtr_file mtr with
  | Except.error e => Except.error e
  | Except.ok m =>
    match process_payment_file payment with
    | Except.error e => Except.error e
    | Except.ok p =>
      let merged := merge_datasets m p
      match process_merged_data merged with
      | Except.error e => Except.error e
      | Except.ok cats =>
        match calculate_tolerance merged with
        | Except.error e => Except.error e
        | Except.ok tol => Except.ok (merged, cats, tol)

/-- The end-to-end order-report row of the claim. -/
def mtrFrameRefund : DataFrame :=
  ⟨["Transaction Type", "Order Id", "Invoice Amount"],
   [[("Transaction Type", Value.str "Refund"),
     ("Order Id", Value.str "AB1234567X"),
     ("Invoice Amount", Value.str "1,000")]]⟩

/-- A payment report with no rows (hence no matching payment row). -/
def payFrameEmpty : DataFrame :=
  ⟨["order id", "type", "total", "description"], []⟩

/-- C7 (code bug): the end-to-end scenario crashes instead of producing the
claimed buckets.  Both processed frames carry a "Transaction Type" column,
so the outer merge suffixes it to "Transaction Type_x"/"Transaction Type_y"
and the merged frame has no "Transaction Type" column at all;
`process_merged_data` then raises `KeyError("Transaction Type")` and
`process_files` aborts.  Up to that crash the data matches the claim's
intent: the merged row has (suffixed) transaction type "Return", invoice
amount 1000 and a null net amount. -/
theorem process_files_end_to_end_crash :
    process_files mtrFrameRefund payFrameEmpty =
      Except.error (PyError.keyError "Transaction Type") ∧
    (merge_datasets (okD (process_mtr_file mtrFrameRefund))
      (okD (process_payment_file payFrameEmpty))).cols.contains
        "Transaction Type" = false ∧
    (merge_datasets (okD (process_mtr_file mtrFrameRefund))
      (okD (process_payment_file payFrameEmpty))).cols.contains
        "Transaction Type_x" = true ∧
    (merge_datasets (okD (process_mtr_file mtrFrameRefund))
      (okD (process_payment_file payFrameEmpty))).cols.contains
        "Transaction Type_y" = true ∧
    ((merge_datasets (okD (process_mtr_file mtrFrameRefund))
      (okD (process_payment_file payFrameEmpty))).rows.map
        (fun r => rowGet r "Transaction Type_x")) = [Value.str "Return"] ∧
    ((merge_datasets (okD (process_mtr_file mtrFrameRefund))
      (okD (process_payment_file payFrameEmpty))).rows.map
        (fun r => rowGet r "Invoice Amount")) = [Value.num (signedInt false 1000)] ∧
    ((merge_datasets (okD (process_mtr_file mtrFrameRefund))
      (okD (process_payment_file payFrameEmpty))).rows.map
        (fun r => rowGet r "Net Amount")) = [Value.null] := by
  exact ⟨by decide, by decide, by decide, by decide, by decide, by decide, by decide⟩

/-- An order report lacking two of the required columns. -/
def mtrFrameBad : DataFrame := ⟨["Order Id"], []⟩

/-- Witness for C9: with Transaction Type and Invoice Amount absent, the
schema error lists exactly those names; on the complete frame the
normalization succeeds. -/
theorem process_mtr_file_schema_witness :
    process_mtr_file mtrFrameBad =
      Except.error (PyError.missingColumns (mtrMissing mtrFrameBad)) ∧
    mtrMissing mtrFrameBad = ["Transaction Type", "Invoice Amount"] ∧
    isOkE (process_mtr_file mtrFrameNA) = true :=
  ⟨(process_mtr_file_schema mtrFrameBad).1.mpr (by decide), by decide,
    (process_mtr_file_schema mtrFrameNA).2.1.mpr (by decide)⟩

end ReconPipeline
